import Mathlib

/-!
Verification of the browser-automation ChatGPT client (`chatgpt_client.py`,
`app.py`).  The embedding models machine time in ticks of 250 ms (the poll
interval of the response-completion loop), so the 1.5 s stability window is
6 ticks and a caller timeout of `timeout` seconds is `4 * timeout` ticks.
DOM state over time is a function from ticks to the list of assistant
message nodes; browser automation commands are recorded in a trace of
`Call` values so that "no automation call happens before X" is a statement
about the trace.  Element waits, navigations and clicks succeed or time out
according to a `World` record that stands for the live page's behaviour.
-/

namespace ChatGPT

/-- Number of 250 ms poll ticks in the 1.5 s stability window of
`_wait_for_response` (`if time.monotonic() - stable_since >= 1.5`). -/
def stabilityTicks : Nat := 6

/-- Drop leading whitespace characters from a character list. -/
def dropLeadingWs : List Char → List Char
  | [] => []
  | c :: rest => if c.isWhitespace then dropLeadingWs rest else c :: rest

/-- Python's `str.strip()` / JavaScript's `String.prototype.trim()`:
remove whitespace from both ends. -/
def pyStrip (s : String) : String :=
  String.mk (dropLeadingWs (dropLeadingWs s.data.reverse).reverse)

/-- Python's `s.startswith(pre)`. -/
def pyStartsWith (s pre : String) : Bool :=
  pre.data.isPrefixOf s.data

/-- Split a character list at the first occurrence of `sep`
(Python's `s.split(sep, 1)` when it returns two parts): `some (pre, post)`
with the separator removed, `none` when `sep` does not occur. -/
def splitFirst (sep : List Char) : List Char → Option (List Char × List Char)
  | [] => if sep.isPrefixOf ([] : List Char) then some ([], []) else none
  | c :: rest =>
    if sep.isPrefixOf (c :: rest) then some ([], (c :: rest).drop sep.length)
    else (splitFirst sep rest).map fun p => (c :: p.1, p.2)

/-- Python's `sep in s` substring test. -/
def occursIn (sep s : String) : Bool :=
  (splitFirst sep.data s.data).isSome

/-- Python's `s.split(sep, 1)[0]`: the part before the first occurrence of
`sep`, or all of `s` when `sep` does not occur. -/
def beforeFirst (sep s : List Char) : List Char :=
  match splitFirst sep s with
  | none => s
  | some (pre, _) => pre

/-- Python's `s.removeprefix(pre)`. -/
def pyRemovePrefix (s pre : String) : String :=
  if pre.data.isPrefixOf s.data then String.mk (s.data.drop pre.data.length) else s

/-- Python's `a or b` over an optional string, where `None` and `""` are
falsy. -/
def pyOrStr (a : Option String) (b : String) : String :=
  match a with
  | none => b
  | some s => if s = "" then b else s

/-- Modelled from the spec: "the path segment following the
conversation-path marker, trimmed of any query suffix" — the characters
before the first '?', all of them when there is no query suffix.  Used
only to compare `getConversationId` against the spec's wording. -/
def beforeQuery : List Char → List Char
  | [] => []
  | c :: rest => if c = '?' then [] else c :: beforeQuery rest

/-- One assistant message DOM node: the optional `data-message-id`
attribute and the raw `textContent`. -/
structure MsgNode where
  id : Option String
  text : String
deriving DecidableEq, Repr

/-- JavaScript truthiness of a nullable string (`prevId &&`): non-null and
non-empty. -/
def jsTruthy : Option String → Bool
  | none => false
  | some s => s ≠ ""

/-- Python truthiness of an optional string (`if conversation_id:`). -/
def optStrTruthy : Option String → Bool
  | none => false
  | some s => s ≠ ""

/-- Python truthiness of an optional bool (the `temporary_chat` factor of
`if conversation_id and temporary_chat:`). -/
def optBoolTruthy : Option Bool → Bool
  | none => false
  | some b => b

/-- `COMPOSER_SELECTOR`. -/
def COMPOSER_SELECTOR : String := "#prompt-textarea[contenteditable=\"true\"]"

/-- `SEND_BUTTON_SELECTOR`. -/
def SEND_BUTTON_SELECTOR : String := "button[aria-label=\"Send prompt\"]"

/-- `STOP_BUTTON_SELECTORS`. -/
def STOP_BUTTON_SELECTORS : List String :=
  ["button[aria-label=\"Stop generating\"]", "button[aria-label=\"Stop streaming\"]"]

/-- `TEMP_CHAT_ON_SELECTOR`. -/
def TEMP_CHAT_ON_SELECTOR : String := "button[aria-label=\"Turn on temporary chat\"]"

/-- `TEMP_CHAT_OFF_SELECTOR`. -/
def TEMP_CHAT_OFF_SELECTOR : String := "button[aria-label=\"Turn off temporary chat\"]"

/-- `CONVERSATION_TURN_SELECTOR`. -/
def CONVERSATION_TURN_SELECTOR : String := "article[data-testid^=\"conversation-turn-\"]"

/-- `MESSAGE_ROLE_SELECTOR` (the two-line Python concatenation). -/
def MESSAGE_ROLE_SELECTOR : String :=
  "div[data-message-author-role=\"assistant\"], div[data-message-author-role=\"user\"]"

/-- The page-side predicate of `_wait_for_response`'s `wait_for_function`:
the last `div[data-message-author-role="assistant"]` node exists, its
trimmed text is non-empty, and its id differs from `prevId` whenever
`prevId` is truthy. -/
def newReplyReady (prevId : Option String) (nodes : List MsgNode) : Bool :=
  match nodes.getLast? with
  | none => false
  | some last =>
    if pyStrip last.text = "" then false
    else if jsTruthy prevId && (last.id == prevId) then false
    else true

/-- `_get_last_assistant_text`: trimmed `textContent` of the last assistant
node, `""` when there is none. -/
def lastAssistantText (nodes : List MsgNode) : String :=
  match nodes.getLast? with
  | none => ""
  | some last => pyStrip last.text

/-- `_get_last_assistant_id`: `data-message-id` of the last assistant node,
null when there is none (or when the attribute is absent). -/
def lastAssistantId (nodes : List MsgNode) : Option String :=
  match nodes.getLast? with
  | none => none
  | some last => last.id

/-- The first phase of `_wait_for_response`: poll the `newReplyReady`
predicate once per tick, `fuel` ticks in total, starting at tick `n`;
return the first tick at which it holds. -/
def findNewReply (pred : Nat → Bool) : Nat → Nat → Option Nat
  | 0, _ => none
  | fuel + 1, n => if pred n then some n else findNewReply pred fuel (n + 1)

/-- The second phase of `_wait_for_response` (the debounce loop), one tick
per iteration.  `r t` is the trimmed last-assistant text read at tick `t`,
`g t` whether a stop/generating button is present at tick `t`.  State:
`lastText` (`last_text`), `stableSince` (`stable_since`, the tick of the
last observed change), `fuel` the remaining iterations before `end_time`.
Returns `some (t, txt)` when the loop returns `txt` at tick `t`, `none`
when the loop runs out of time. -/
def stabilizeLoop (r : Nat → String) (g : Nat → Bool) :
    Nat → Nat → String → Nat → Option (Nat × String)
  | 0, _, _, _ => none
  | fuel + 1, n, lastText, stableSince =>
    let st :=
      if r n ≠ "" ∧ r n ≠ lastText then (r n, n) else (lastText, stableSince)
    if st.1 ≠ "" ∧ g n = false ∧ stabilityTicks ≤ n - st.2 then some (n, st.1)
    else stabilizeLoop r g fuel (n + 1) st.1 st.2

/-- `_get_conversation_id`: the part of the page URL after the first
occurrence of the marker `/c/`, truncated at the first `?`; `none` when
the marker is absent. -/
def getConversationId (url : String) : Option String :=
  match splitFirst "/c/".data url.data with
  | none => none
  | some (_, tail) =>
    match splitFirst ['?'] tail with
    | none => some (String.mk tail)
    | some (pre, _) => some (String.mk pre)

/-- The failure kinds a turn can raise: Python `ValueError`,
`RuntimeError`, and an uncaught Playwright timeout. -/
inductive Err
  | valueError (msg : String)
  | runtimeError (msg : String)
  | playwrightTimeout (what : String)
deriving DecidableEq, Repr

/-- A browser-automation command issued against the automation surface.
"Zero automation calls" is emptiness of a `List Call` trace. -/
inductive Call
  | launch
  | launchPersistent
  | newContext
  | newPage
  | applyStealth
  | addCookies
  | setDefaultTimeout (ms : Nat)
  | goto (url : String)
  | waitForUrl (pattern : String) (timeoutMs : Nat)
  | waitForSelector (selector : String) (timeoutMs : Nat)
  | waitForLoadState (stateName : String) (timeoutMs : Nat)
  | locatorClick (selector : String)
  | isVisible (selector : String)
  | isDisabled (selector : String)
  | press (key : String)
  | typeText (text : String) (delayMs : Nat)
  | waitForFunction (timeoutMs : Nat)
  | evaluate (purpose : String)
  | closePage
  | closeContext
  | closeBrowser
  | stopPlaywright
deriving DecidableEq, Repr

/-- `ChatGPTResponse` (the dataclass): `failed` defaults to `False`. -/
structure ChatGPTResponse where
  response : String
  conversation_id : Option String
  failed : Bool := false
deriving DecidableEq, Repr

/-- The live page's behaviour during one `send_message` turn: which
element waits succeed, the URL on entry, and the assistant-node DOM
content over time (ticks of 250 ms, counted from the send). -/
structure World where
  /-- the page exists and `is_closed()` is false on entry -/
  pageAlive : Bool
  /-- `page.url` on entry -/
  url0 : String
  /-- `use_stealth` flag of the client -/
  useStealth : Bool
  /-- the `playwright_stealth` import succeeded (`Stealth is not None`) -/
  stealthAvailable : Bool
  /-- the temporary-chat toggle appears within its 5 s bound -/
  tempToggleFound : Bool
  /-- the "Turn off temporary chat" button is visible -/
  tempOffVisible : Bool
  /-- the "Turn on temporary chat" button is visible -/
  tempOnVisible : Bool
  /-- after clicking a toggle, the opposite toggle appears within 5 s -/
  tempConfirmFound : Bool
  /-- the composer appears within its bound -/
  composerFound : Bool
  /-- `wait_for_url` reaches the conversation URL within 15 s -/
  convUrlReached : Bool
  /-- a conversation-turn / message-role element appears within 10 s -/
  convMessageFound : Bool
  /-- the send button appears within its 10 s bound -/
  sendButtonFound : Bool
  /-- the send button is initially disabled -/
  sendDisabled : Bool
  /-- a disabled send button becomes enabled within 10 s -/
  sendBecomesEnabled : Bool
  /-- assistant nodes present before the prompt is sent -/
  nodesBefore : List MsgNode
  /-- assistant nodes at tick `t` after the send -/
  nodes : Nat → List MsgNode
  /-- a stop/generating button is present at tick `t` -/
  generating : Nat → Bool
  /-- `page.url` when `_get_conversation_id` reads it after completion -/
  finalUrl : String

/-- The `RuntimeError` message of `_apply_stealth` when the
`playwright_stealth` import failed. -/
def stealthMissingMsg : String :=
  "playwright-stealth is required when stealth is enabled. Install it with `pip install playwright-stealth`."

/-- `ValueError` message of the conflicting-flags check in `send_message`. -/
def conflictMsg : String :=
  "temporary_chat cannot be enabled when conversation_id is set"

/-- `ValueError` message of `_goto_conversation` for a blank id. -/
def conversationIdEmptyMsg : String := "conversation_id must be a non-empty string"

/-- `RuntimeError` message of `_wait_for_conversation_ready` when the URL
never matches. -/
def convLoadTimeoutMsg : String := "Timed out waiting for conversation to load"

/-- `RuntimeError` message of `_wait_for_conversation_ready` when the
composer never appears. -/
def composerUnavailableMsg : String := "ChatGPT composer not available"

/-- `RuntimeError` message of `_wait_for_composer`. -/
def composerTokenMsg : String := "ChatGPT composer not available; check session token"

/-- `RuntimeError` message of `_set_temporary_chat` when no toggle appears. -/
def tempToggleMissingMsg : String := "Temporary chat toggle not found"

/-- `RuntimeError` message of `_wait_for_response` when no new reply
appears within the caller timeout (the TIMEOUT_NO_REPLY exit). -/
def timeoutNoReplyMsg : String := "Timed out waiting for ChatGPT response"

/-- `RuntimeError` message of `_wait_for_response` when a reply appeared
but never stabilized (the TIMEOUT_NOT_FINISHED exit). -/
def timeoutNotFinishedMsg : String := "Timed out waiting for ChatGPT to finish responding"

/-- `ValueError` message of `_set_session_cookie` for an unparsable base
URL. -/
def invalidBaseMsg : String := "Invalid base_url for ChatGPT client"

/-- `_ensure_page`: when the page is alive this is a no-op issuing no
automation call; otherwise a new page is created, stealth is re-applied
(raising when the capability is missing), the default timeout is set and
the page navigates to the base URL.  Returns the page URL afterwards. -/
def ensurePage (w : World) (base : String) : List Call × Except Err String :=
  if w.pageAlive then ([], .ok w.url0)
  else if w.useStealth && !w.stealthAvailable then
    ([Call.newPage], .error (.runtimeError stealthMissingMsg))
  else
    ([Call.newPage] ++ (if w.useStealth then [Call.applyStealth] else []) ++
      [Call.setDefaultTimeout 10000, Call.goto base], .ok base)

/-- `_goto_conversation`: strip the id, reject a blank one, skip the
navigation when the current URL already starts with the target, otherwise
navigate.  Returns the page URL afterwards. -/
def gotoConversation (base url cid : String) : List Call × Except Err String :=
  let c := pyStrip cid
  if c = "" then ([], .error (.valueError conversationIdEmptyMsg))
  else
    let target := base ++ "/c/" ++ c
    if pyStartsWith url target then ([], .ok url)
    else ([Call.goto target], .ok target)

/-- `_wait_for_conversation_ready` (note: called with the unstripped id):
bounded waits for the URL, the composer, and an existing message element,
falling back to a bounded network-idle wait — whose own timeout is
swallowed — when no message element appears. -/
def waitForConversationReady (w : World) (base cid : String) : List Call × Except Err Unit :=
  let target := base ++ "/c/" ++ cid
  let u := Call.waitForUrl (target ++ "*") 15000
  if !w.convUrlReached then ([u], .error (.runtimeError convLoadTimeoutMsg))
  else
    let cw := Call.waitForSelector COMPOSER_SELECTOR 15000
    if !w.composerFound then ([u, cw], .error (.runtimeError composerUnavailableMsg))
    else
      let mw := Call.waitForSelector
        (CONVERSATION_TURN_SELECTOR ++ ", " ++ MESSAGE_ROLE_SELECTOR) 10000
      if w.convMessageFound then ([u, cw, mw], .ok ())
      else ([u, cw, mw, Call.waitForLoadState "networkidle" 5000], .ok ())

/-- `_goto_home`: navigate to the base URL when on a different host
(URL not starting with the base) or inside a conversation path (`/c/` in
the URL); otherwise a no-op.  Returns the page URL afterwards. -/
def gotoHome (base url : String) : List Call × String :=
  if !pyStartsWith url base then ([Call.goto base], base)
  else if occursIn "/c/" url then ([Call.goto base], base)
  else ([], url)

/-- `_set_temporary_chat`: wait for either toggle, no-op when the desired
state is already active, otherwise click and wait for the opposite toggle
(that wait's timeout is not caught and escapes as a Playwright error). -/
def setTemporaryChat (w : World) (enabled : Bool) : List Call × Except Err Unit :=
  let wsel := Call.waitForSelector (TEMP_CHAT_ON_SELECTOR ++ ", " ++ TEMP_CHAT_OFF_SELECTOR) 5000
  if !w.tempToggleFound then ([wsel], .error (.runtimeError tempToggleMissingMsg))
  else if enabled then
    if w.tempOffVisible then ([wsel, Call.isVisible TEMP_CHAT_OFF_SELECTOR], .ok ())
    else
      let t := [wsel, Call.isVisible TEMP_CHAT_OFF_SELECTOR,
        Call.locatorClick TEMP_CHAT_ON_SELECTOR,
        Call.waitForSelector TEMP_CHAT_OFF_SELECTOR 5000]
      if w.tempConfirmFound then (t, .ok ())
      else (t, .error (.playwrightTimeout TEMP_CHAT_OFF_SELECTOR))
  else
    if w.tempOnVisible then ([wsel, Call.isVisible TEMP_CHAT_ON_SELECTOR], .ok ())
    else
      let t := [wsel, Call.isVisible TEMP_CHAT_ON_SELECTOR,
        Call.locatorClick TEMP_CHAT_OFF_SELECTOR,
        Call.waitForSelector TEMP_CHAT_ON_SELECTOR 5000]
      if w.tempConfirmFound then (t, .ok ())
      else (t, .error (.playwrightTimeout TEMP_CHAT_ON_SELECTOR))

/-- `_wait_for_composer`. -/
def waitForComposer (w : World) : List Call × Except Err Unit :=
  let c := Call.waitForSelector COMPOSER_SELECTOR 15000
  if w.composerFound then ([c], .ok ())
  else ([c], .error (.runtimeError composerTokenMsg))

/-- `_fill_prompt`: click the composer, select-all (Meta on Darwin,
Control elsewhere) and delete, then type the message — with the
configured per-character delay in SLOW mode, in bulk (delay 0) otherwise. -/
def fillPrompt (isDarwin : Bool) (message : String) (inputMode : String)
    (delayMs : Nat) : List Call :=
  let modifier := if isDarwin then "Meta" else "Control"
  [Call.locatorClick COMPOSER_SELECTOR, Call.press (modifier ++ "+A"),
   Call.press "Backspace",
   Call.typeText message (if inputMode = "SLOW" then delayMs else 0)]

/-- `_click_send`: wait for the send button; when it is disabled poll (a
single bounded `wait_for_function`) until enabled; then click.  Timeouts
of the uncaught waits escape as Playwright errors. -/
def clickSend (w : World) : List Call × Except Err Unit :=
  let ws := Call.waitForSelector SEND_BUTTON_SELECTOR 10000
  if !w.sendButtonFound then ([ws], .error (.playwrightTimeout SEND_BUTTON_SELECTOR))
  else if w.sendDisabled then
    if w.sendBecomesEnabled then
      ([ws, Call.isDisabled SEND_BUTTON_SELECTOR, Call.waitForFunction 10000,
        Call.locatorClick SEND_BUTTON_SELECTOR], .ok ())
    else
      ([ws, Call.isDisabled SEND_BUTTON_SELECTOR, Call.waitForFunction 10000],
       .error (.playwrightTimeout SEND_BUTTON_SELECTOR))
  else
    ([ws, Call.isDisabled SEND_BUTTON_SELECTOR, Call.locatorClick SEND_BUTTON_SELECTOR],
     .ok ())

/-- `_wait_for_response`: phase one waits (bounded by
`max(timeout, 1) * 1000` ms, i.e. `4 * max timeout 1` ticks) for a new
non-empty reply whose id differs from `prevId`; its timeout raises the
no-reply error.  Phase two runs the debounce loop for `timeout` further
seconds from the tick phase one succeeded at; running out raises the
not-finished error.  The per-tick text and indicator reads of the loop
are modelled by the `World` functions rather than by trace entries. -/
def waitForResponse (w : World) (prevId : Option String) (timeout : Nat) :
    List Call × Except Err String :=
  match findNewReply (fun t => newReplyReady prevId (w.nodes t)) (4 * max timeout 1) 0 with
  | none =>
    ([Call.waitForFunction (1000 * max timeout 1)],
     .error (.runtimeError timeoutNoReplyMsg))
  | some t0 =>
    match stabilizeLoop (fun t => lastAssistantText (w.nodes t)) w.generating
        (4 * timeout) t0 "" t0 with
    | some (_, txt) =>
      ([Call.waitForFunction (1000 * max timeout 1),
        Call.evaluate "poll-last-assistant-text"], .ok txt)
    | none =>
      ([Call.waitForFunction (1000 * max timeout 1),
        Call.evaluate "poll-last-assistant-text"],
       .error (.runtimeError timeoutNotFinishedMsg))

/-- The navigation stage of `send_message`: to the conversation (when the
id is truthy) with its readiness wait, otherwise home followed by the
temporary-chat toggle when that flag is not `None`. -/
def navStage (w : World) (base url : String) (cid : Option String)
    (tmp : Option Bool) : List Call × Except Err Unit :=
  if optStrTruthy cid then
    let c := cid.getD ""
    match gotoConversation base url c with
    | (a, .error e) => (a, .error e)
    | (a, .ok _) =>
      match waitForConversationReady w base c with
      | (b, r) => (a ++ b, r)
  else
    let a := (gotoHome base url).1
    match tmp with
    | none => (a, .ok ())
    | some en =>
      match setTemporaryChat w en with
      | (b, r) => (a ++ b, r)

/-- `send_message`: ensure the page, validate the conflicting
conversation-id / temporary-chat flags, navigate, wait for the composer,
capture the previous assistant id, fill and send the prompt, wait for the
response, and resolve the conversation id from the page URL.  The result
trace is every automation call issued before returning or raising. -/
def sendMessage (w : World) (isDarwin : Bool) (base message : String)
    (timeout : Nat) (inputMode : String) (delayMs : Nat)
    (conversationId : Option String) (temporaryChat : Option Bool) :
    List Call × Except Err ChatGPTResponse :=
  match ensurePage w base with
  | (t0, .error e) => (t0, .error e)
  | (t0, .ok url1) =>
    if optStrTruthy conversationId && optBoolTruthy temporaryChat then
      (t0, .error (.valueError conflictMsg))
    else
      match navStage w base url1 conversationId temporaryChat with
      | (t1, .error e) => (t0 ++ t1, .error e)
      | (t1, .ok _) =>
        match waitForComposer w with
        | (t2, .error e) => (t0 ++ t1 ++ t2, .error e)
        | (t2, .ok _) =>
          match clickSend w with
          | (t4, .error e) =>
            (t0 ++ t1 ++ t2 ++ (Call.evaluate "get-last-assistant-id" ::
              fillPrompt isDarwin message inputMode delayMs) ++ t4, .error e)
          | (t4, .ok _) =>
            match waitForResponse w (lastAssistantId w.nodesBefore) timeout with
            | (t5, .error e) =>
              (t0 ++ t1 ++ t2 ++ (Call.evaluate "get-last-assistant-id" ::
                fillPrompt isDarwin message inputMode delayMs) ++ t4 ++ t5, .error e)
            | (t5, .ok txt) =>
              (t0 ++ t1 ++ t2 ++ (Call.evaluate "get-last-assistant-id" ::
                fillPrompt isDarwin message inputMode delayMs) ++ t4 ++ t5,
               .ok { response := txt, conversation_id := getConversationId w.finalUrl })

/-- Which teardown handles exist and which teardown steps fail, for
`close()`. -/
structure CloseWorld where
  hasPage : Bool
  hasContext : Bool
  hasBrowser : Bool
  hasPlaywright : Bool
  pageCloseFails : Bool
  contextCloseFails : Bool
  browserCloseFails : Bool
  playwrightStopFails : Bool
deriving DecidableEq, Repr

/-- `close()`: close page, then context, then browser, then stop
playwright, each guarded only by a truthiness check on the handle.  There
is no exception handling in `close`, so the first failing step's error
escapes and the remaining steps do not run.  Result: the steps executed
and the escaping error, if any. -/
def close (w : CloseWorld) : List Call × Option Err :=
  let s1 := if w.hasPage then [Call.closePage] else []
  if w.hasPage && w.pageCloseFails then (s1, some (Err.runtimeError "page close failed"))
  else
    let s2 := s1 ++ (if w.hasContext then [Call.closeContext] else [])
    if w.hasContext && w.contextCloseFails then
      (s2, some (Err.runtimeError "context close failed"))
    else
      let s3 := s2 ++ (if w.hasBrowser then [Call.closeBrowser] else [])
      if w.hasBrowser && w.browserCloseFails then
        (s3, some (Err.runtimeError "browser close failed"))
      else
        let s4 := s3 ++ (if w.hasPlaywright then [Call.stopPlaywright] else [])
        if w.hasPlaywright && w.playwrightStopFails then
          (s4, some (Err.runtimeError "playwright stop failed"))
        else (s4, none)

/-- Startup conditions for `_start`. -/
structure StartWorld where
  useStealth : Bool
  stealthAvailable : Bool
  /-- `user_data_dir` was supplied (persistent-context launch) -/
  persistent : Bool
  /-- the persistent context already has open pages -/
  hasExistingPages : Bool
  /-- `urlparse(base_url)` has a scheme and hostname -/
  baseValid : Bool
deriving DecidableEq, Repr

/-- `_start`: launch (persistent context or browser + fresh context) and
obtain a page, apply stealth — raising before any further call when the
capability is required but unavailable — write the session cookies, set
the default timeout and navigate to the base URL. -/
def start (w : StartWorld) (base : String) : List Call × Except Err Unit :=
  let launchCalls :=
    if w.persistent then
      [Call.launchPersistent] ++ (if w.hasExistingPages then [] else [Call.newPage])
    else [Call.launch, Call.newContext, Call.newPage]
  if w.useStealth && !w.stealthAvailable then
    (launchCalls, .error (.runtimeError stealthMissingMsg))
  else
    let stealthCalls := if w.useStealth then [Call.applyStealth] else []
    if !w.baseValid then
      (launchCalls ++ stealthCalls, .error (.valueError invalidBaseMsg))
    else
      (launchCalls ++ stealthCalls ++
        [Call.addCookies, Call.setDefaultTimeout 10000, Call.goto base], .ok ())

/-- `create`: construct the client and run `_start` exactly once; a
startup error propagates to the caller unchanged (no retry, no client
value is produced). -/
def create (w : StartWorld) (base : String) : List Call × Except Err Unit :=
  start w base

/-- Value of a standard base64 alphabet character. -/
def b64CharVal (c : Char) : Option Nat :=
  if 'A' ≤ c ∧ c ≤ 'Z' then some (c.toNat - 65)
  else if 'a' ≤ c ∧ c ≤ 'z' then some (c.toNat - 97 + 26)
  else if '0' ≤ c ∧ c ≤ '9' then some (c.toNat - 48 + 52)
  else if c = '+' then some 62
  else if c = '/' then some 63
  else none

/-- Strict base64 decoding on four-character groups: `=` padding may only
close the final group (one or two characters of it). -/
def b64decodeGroups : List Char → Option (List Nat)
  | [] => some []
  | a :: b :: c :: d :: rest =>
    match b64CharVal a, b64CharVal b with
    | some va, some vb =>
      if d = '=' then
        if rest ≠ [] then none
        else if c = '=' then some [va * 4 + vb / 16]
        else
          match b64CharVal c with
          | some vc => some [va * 4 + vb / 16, vb % 16 * 16 + vc / 4]
          | none => none
      else
        match b64CharVal c, b64CharVal d with
        | some vc, some vd =>
          (b64decodeGroups rest).map fun tail =>
            (va * 4 + vb / 16) :: (vb % 16 * 16 + vc / 4) :: (vc % 4 * 64 + vd) :: tail
        | _, _ => none
    | _, _ => none
  | _ => none

/-- Models `base64.b64decode(value, validate=True)`: only alphabet
characters, length a multiple of four, padding only at the very end
(Python raises `binascii.Error` otherwise); `none` is the raised error. -/
def b64decode (s : String) : Option (List Nat) :=
  b64decodeGroups s.data

/-- The common tail of `_decode_base64_image`: decode, then reject an
empty payload. -/
def decodePayload (value : String) (detected : Option String) :
    Except String (List Nat × Option String) :=
  match b64decode value with
  | none => .error "invalid base64 image payload"
  | some [] => .error "image payload is empty"
  | some bytes => .ok (bytes, detected)

/-- `_decode_base64_image`: strip, peel a `data:` URL header (requiring a
comma and a `;base64` marker, extracting the declared MIME type), then
base64-decode and reject an empty result. -/
def decodeBase64Image (raw : String) : Except String (List Nat × Option String) :=
  let value := pyStrip raw
  if pyStartsWith value "data:" then
    match splitFirst [','] value.data with
    | none => .error "invalid data URL format"
    | some (header, payload) =>
      if !(splitFirst ";base64".data header).isSome then
        .error "data URL must be base64-encoded"
      else
        let dt := pyStrip (pyRemovePrefix (String.mk (beforeFirst [';'] header)) "data:")
        decodePayload (String.mk payload) (if dt = "" then none else some dt)
  else decodePayload value none

/-- The request-body shape of one attachment (`ChatImageRequest`). -/
structure ChatImageRequest where
  name : String
  data_base64 : String
  content_type : Option String
deriving DecidableEq, Repr

/-- The validated attachment passed on to the client (`ChatGPTImage`,
imported by `app.py`; bytes as naturals below 256). -/
structure ChatGPTImage where
  name : String
  content_type : String
  data : List Nat
deriving DecidableEq, Repr

/-- `_build_image_payloads` (with `guessType` standing for
`mimetypes.guess_type(name)[0]`): for each attachment in order, reject a
blank name, decode the payload, resolve the content type
(explicit / data-URL-declared / guessed, defaulting to
`application/octet-stream`), and reject a non-image MIME type.  `idx` is
the zero-based position used in error messages. -/
def buildImagePayloads (guessType : String → Option String) :
    List ChatImageRequest → Nat → Except String (List ChatGPTImage)
  | [], _ => .ok []
  | image :: rest, idx =>
    let name := pyStrip image.name
    if name = "" then .error ("images[" ++ toString idx ++ "].name cannot be empty")
    else
      match decodeBase64Image image.data_base64 with
      | .error e => .error e
      | .ok (binary, detected) =>
        let ct0 := pyStrip (pyOrStr image.content_type
          (pyOrStr detected (pyOrStr (guessType name) "")))
        let contentType := if ct0 = "" then "application/octet-stream" else ct0
        if !pyStartsWith contentType "image/" then
          .error ("images[" ++ toString idx ++ "].content_type must be an image MIME type")
        else
          match buildImagePayloads guessType rest (idx + 1) with
          | .error e => .error e
          | .ok tail => .ok (ChatGPTImage.mk name contentType binary :: tail)

/-- HTTP-level failures of the `/chat` endpoint. -/
inductive HttpErr
  | serverError (detail : String)
  | badRequest (detail : String)
  | badGateway (detail : String)
deriving DecidableEq, Repr

/-- The request body of `/chat`, with the typing delay already in
milliseconds. -/
structure ChatRequest where
  message : String
  timeout : Option Nat
  input_mode : String
  input_delayMs : Nat
  conversation_id : Option String
  temporary_chat : Option Bool
  images : Option (List ChatImageRequest)

/-- The string detail the endpoint reports for a client exception
(`str(exc)`). -/
def errDetail : Err → String
  | .valueError m => m
  | .runtimeError m => m
  | .playwrightTimeout s => "Timeout waiting for " ++ s

/-- The `/chat` handler: reject when the client is uninitialised, build
and validate every attachment payload (a `ValueError` becomes a 400
before any automation), then under the turn lock run `send_message` — a
client exception becomes a 502, a failed response becomes a 502, and
success returns the text and conversation id.  (The source passes the
validated payloads on via an `images=` keyword that the checked-in client
does not accept; the payloads play no further role here.) -/
def chat (guessType : String → Option String) (clientReady : Bool) (w : World)
    (isDarwin : Bool) (base : String) (defaultTimeout : Nat) (req : ChatRequest) :
    List Call × Except HttpErr (String × Option String) :=
  if !clientReady then ([], .error (.serverError "Client not initialized"))
  else
    match buildImagePayloads guessType (req.images.getD []) 0 with
    | .error e => ([], .error (.badRequest e))
    | .ok _ =>
      match sendMessage w isDarwin base req.message (req.timeout.getD defaultTimeout)
          req.input_mode req.input_delayMs req.conversation_id req.temporary_chat with
      | (calls, .error e) => (calls, .error (.badGateway (errDetail e)))
      | (calls, .ok resp) =>
        if resp.failed then (calls, .error (.badGateway "No response from ChatGPT"))
        else (calls, .ok (resp.response, resp.conversation_id))

/-- The simulated reply stream of the debounce test: the (raw,
whitespace-padded) text changes at t = 0 s, 0.5 s and 1.0 s (ticks 0, 2,
4), the generating indicator is present strictly before t = 1.0 s
(tick 4). -/
def demoNodes (t : Nat) : List MsgNode :=
  if t < 2 then [⟨some "m1", " po "⟩]
  else if t < 4 then [⟨some "m1", " pon "⟩]
  else [⟨some "m1", " pong "⟩]

/-- Trimmed text read from the simulated stream at tick `t`. -/
def demoRead (t : Nat) : String := lastAssistantText (demoNodes t)

/-- The generating indicator of the simulated stream clears at t = 1.0 s
(tick 4). -/
def demoGen (t : Nat) : Bool := decide (t < 4)

/-- A healthy live-page world for witness scenarios: page alive on the
home URL, all waits succeed, no prior assistant messages, and the reply
stream `demoNodes` settles to "pong". -/
def demoWorld : World where
  pageAlive := true
  url0 := "https://chatgpt.com"
  useStealth := true
  stealthAvailable := true
  tempToggleFound := true
  tempOffVisible := false
  tempOnVisible := true
  tempConfirmFound := true
  composerFound := true
  convUrlReached := true
  convMessageFound := true
  sendButtonFound := true
  sendDisabled := false
  sendBecomesEnabled := true
  nodesBefore := []
  nodes := demoNodes
  generating := demoGen
  finalUrl := "https://chatgpt.com/c/abc123?model=auto"

/-- `demoWorld` with the page closed out-of-band (and stealth disabled so
`_ensure_page` succeeds in recreating it). -/
def demoWorldClosedPage : World :=
  { demoWorld with pageAlive := false, useStealth := false }

/-- A world whose page never shows any assistant reply. -/
def demoWorldNoReply : World :=
  { demoWorld with nodes := fun _ => [], generating := fun _ => false }

/-- A teardown world where every handle exists and closing the page
fails. -/
def demoCloseWorld : CloseWorld :=
  ⟨true, true, true, true, true, false, false, false⟩

/-- Soundness of the debounce loop.  If the loop, entered at tick `n` with
state `(lastText, stableSince)` satisfying the loop invariant, returns
`txt` at tick `m`, then no generating indicator is present at `m`, `txt`
is non-empty, and there is a tick `s` with `s + stabilityTicks ≤ m` such
that `txt` was read at `s` and the text read at every tick of `(s, m]` is
either empty or equal to `txt` (no change for a full stability window). -/
theorem stabilizeLoop_sound (r : Nat → String) (g : Nat → Bool) :
    ∀ (fuel n : Nat) (lastText : String) (stableSince : Nat) (m : Nat) (txt : String),
      (lastText = "" ∨ (r stableSince = lastText ∧
        ∀ j, stableSince < j → j < n → r j = "" ∨ r j = lastText)) →
      stabilizeLoop r g fuel n lastText stableSince = some (m, txt) →
      g m = false ∧ txt ≠ "" ∧
        ∃ s, s + stabilityTicks ≤ m ∧ r s = txt ∧
          ∀ j, s < j → j ≤ m → r j = "" ∨ r j = txt := by
  intro fuel
  induction fuel with
  | zero => intro n lastText stableSince m txt _ h; simp [stabilizeLoop] at h
  | succ fuel ih =>
    intro n lastText stableSince m txt hinv h
    by_cases hupd : r n ≠ "" ∧ r n ≠ lastText
    · -- the text changed at tick n: the window restarts at n
      simp only [stabilizeLoop, if_pos hupd] at h
      have hret : ¬ (r n ≠ "" ∧ g n = false ∧ stabilityTicks ≤ n - n) := by
        intro hc
        have := hc.2.2
        simp [stabilityTicks] at this
      rw [if_neg hret] at h
      exact ih (n + 1) (r n) n m txt
        (Or.inr ⟨rfl, by intro j h1 h2; omega⟩) h
    · -- no change at tick n: r n is empty or equals lastText
      simp only [stabilizeLoop, if_neg hupd] at h
      have hnc : r n = "" ∨ r n = lastText := by
        by_cases h1 : r n = ""
        · exact Or.inl h1
        · by_cases h2 : r n = lastText
          · exact Or.inr h2
          · exact absurd ⟨h1, h2⟩ hupd
      by_cases hret : lastText ≠ "" ∧ g n = false ∧ stabilityTicks ≤ n - stableSince
      · rw [if_pos hret] at h
        have hpair : (n, lastText) = (m, txt) := Option.some.inj h
        have hm : n = m := congrArg Prod.fst hpair
        have ht : lastText = txt := congrArg Prod.snd hpair
        subst hm; subst ht
        rcases hinv with hempty | ⟨hread, hstable⟩
        · exact absurd hempty hret.1
        · refine ⟨hret.2.1, hret.1, stableSince, ?_, hread, ?_⟩
          · have h6 := hret.2.2
            simp only [stabilityTicks] at h6 ⊢
            omega
          · intro j h1 h2
            rcases Nat.lt_or_ge j n with hj | hj
            · exact hstable j h1 hj
            · have : j = n := by omega
              subst this
              exact hnc
      · rw [if_neg hret] at h
        refine ih (n + 1) lastText stableSince m txt ?_ h
        rcases hinv with hempty | ⟨hread, hstable⟩
        · left; exact hempty
        · right
          refine ⟨hread, ?_⟩
          intro j h1 h2
          rcases Nat.lt_or_ge j n with hj | hj
          · exact hstable j h1 hj
          · have : j = n := by omega
            subst this
            exact hnc

/-- If the debounce loop (entered with empty `last_text`) returns, the
returned text is non-empty and was read from the page at some tick. -/
theorem stabilizeLoop_text_read (r : Nat → String) (g : Nat → Bool)
    (fuel n stableSince m : Nat) (txt : String)
    (h : stabilizeLoop r g fuel n "" stableSince = some (m, txt)) :
    txt ≠ "" ∧ ∃ s, r s = txt := by
  obtain ⟨_, hne, s, _, hread, _⟩ :=
    stabilizeLoop_sound r g fuel n "" stableSince m txt (Or.inl rfl) h
  exact ⟨hne, s, hread⟩

/-- The new-reply poll returns `none` when the predicate fails on every
polled tick. -/
theorem findNewReply_none (pred : Nat → Bool) :
    ∀ (fuel n : Nat), (∀ k, n ≤ k → k < n + fuel → pred k = false) →
      findNewReply pred fuel n = none := by
  intro fuel
  induction fuel with
  | zero => intro n _; rfl
  | succ fuel ih =>
    intro n h
    have h0 : pred n = false := h n (Nat.le_refl n) (by omega)
    simp only [findNewReply, h0, Bool.false_eq_true, if_false]
    exact ih (n + 1) fun k hk1 hk2 => h k (by omega) (by omega)

/-- When the new-reply poll succeeds, the predicate holds at the returned
tick, which lies in the polled window. -/
theorem findNewReply_some (pred : Nat → Bool) :
    ∀ (fuel n t : Nat), findNewReply pred fuel n = some t →
      pred t = true ∧ n ≤ t ∧ t < n + fuel := by
  intro fuel
  induction fuel with
  | zero => intro n t h; simp [findNewReply] at h
  | succ fuel ih =>
    intro n t h
    by_cases hp : pred n = true
    · simp only [findNewReply, hp, if_true] at h
      obtain rfl : n = t := Option.some.inj h
      exact ⟨hp, Nat.le_refl n, by omega⟩
    · simp only [findNewReply, hp, if_false] at h
      obtain ⟨h1, h2, h3⟩ := ih (n + 1) t h
      exact ⟨h1, by omega, by omega⟩

/-- `startswith` is reflexive. -/
theorem pyStartsWith_self (s : String) : pyStartsWith s s = true :=
  List.isPrefixOf_iff_prefix.mpr (List.prefix_refl s.data)

/-- A successful first-occurrence split decomposes the input. -/
theorem splitFirst_sound (sep : List Char) :
    ∀ (s pre post : List Char), splitFirst sep s = some (pre, post) →
      s = pre ++ sep ++ post := by
  intro s
  induction s with
  | nil =>
    intro pre post h
    simp only [splitFirst] at h
    by_cases hp : sep.isPrefixOf ([] : List Char) = true
    · rw [if_pos hp] at h
      have hsep : sep = [] := List.prefix_nil.mp (List.isPrefixOf_iff_prefix.mp hp)
      have hpair : (([] : List Char), ([] : List Char)) = (pre, post) := Option.some.inj h
      have h1 : ([] : List Char) = pre := congrArg Prod.fst hpair
      have h2 : ([] : List Char) = post := congrArg Prod.snd hpair
      simp [← h1, ← h2, hsep]
    · rw [if_neg hp] at h
      exact absurd h (by simp)
  | cons c rest ih =>
    intro pre post h
    simp only [splitFirst] at h
    by_cases hp : sep.isPrefixOf (c :: rest) = true
    · rw [if_pos hp] at h
      obtain ⟨u, hu⟩ := List.isPrefixOf_iff_prefix.mp hp
      have hpair : (([] : List Char), (c :: rest).drop sep.length) = (pre, post) :=
        Option.some.inj h
      have h1 : ([] : List Char) = pre := congrArg Prod.fst hpair
      have h2 : (c :: rest).drop sep.length = post := congrArg Prod.snd hpair
      have hdrop : (c :: rest).drop sep.length = u := by
        rw [← hu, List.drop_left]
      rw [← h1, ← h2, hdrop, List.nil_append, hu]
    · rw [if_neg hp] at h
      cases hsf : splitFirst sep rest with
      | none => rw [hsf] at h; exact absurd h (by simp)
      | some p =>
        obtain ⟨p1, p2⟩ := p
        rw [hsf] at h
        simp only [Option.map_some'] at h
        have hpair : (c :: p1, p2) = (pre, post) := Option.some.inj h
        have h1 : c :: p1 = pre := congrArg Prod.fst hpair
        have h2 : p2 = post := congrArg Prod.snd hpair
        have := ih p1 p2 hsf
        rw [← h1, ← h2]
        simp [this]

/-- A decomposable input is always split. -/
theorem splitFirst_isSome (sep : List Char) (hsep : sep ≠ []) :
    ∀ (a b : List Char), (splitFirst sep (a ++ sep ++ b)).isSome = true := by
  intro a
  induction a with
  | nil =>
    intro b
    rw [List.nil_append]
    cases hs : sep ++ b with
    | nil => exact absurd (List.append_eq_nil.mp hs).1 hsep
    | cons c t =>
      have hp : sep.isPrefixOf (c :: t) = true := by
        rw [← hs]
        exact List.isPrefixOf_iff_prefix.mpr (List.prefix_append sep b)
      simp only [splitFirst, if_pos hp, Option.isSome_some]
  | cons c a ih =>
    intro b
    by_cases hp : sep.isPrefixOf (c :: (a ++ sep ++ b)) = true
    · simp only [List.cons_append, List.append_assoc] at *
      simp only [splitFirst, if_pos hp, Option.isSome_some]
    · simp only [List.cons_append, List.append_assoc] at *
      simp only [splitFirst, if_neg hp]
      have := ih b
      cases hsf : splitFirst sep (a ++ (sep ++ b)) with
      | none => rw [hsf] at this; simp at this
      | some p => simp

/-- The split happens at the first occurrence: any decomposition has a
prefix at least as long as the returned one. -/
theorem splitFirst_min (sep : List Char) :
    ∀ (s pre post a b : List Char), splitFirst sep s = some (pre, post) →
      s = a ++ sep ++ b → pre.length ≤ a.length := by
  intro s
  induction s with
  | nil =>
    intro pre post a b h _
    simp only [splitFirst] at h
    by_cases hp : sep.isPrefixOf ([] : List Char) = true
    · rw [if_pos hp] at h
      have hpair : (([] : List Char), ([] : List Char)) = (pre, post) := Option.some.inj h
      have h1 : ([] : List Char) = pre := congrArg Prod.fst hpair
      simp [← h1]
    · rw [if_neg hp] at h
      exact absurd h (by simp)
  | cons c rest ih =>
    intro pre post a b h heq
    simp only [splitFirst] at h
    by_cases hp : sep.isPrefixOf (c :: rest) = true
    · rw [if_pos hp] at h
      have hpair : (([] : List Char), (c :: rest).drop sep.length) = (pre, post) :=
        Option.some.inj h
      have h1 : ([] : List Char) = pre := congrArg Prod.fst hpair
      simp [← h1]
    · rw [if_neg hp] at h
      cases hsf : splitFirst sep rest with
      | none => rw [hsf] at h; exact absurd h (by simp)
      | some p =>
        obtain ⟨p1, p2⟩ := p
        rw [hsf] at h
        simp only [Option.map_some'] at h
        have hpair : (c :: p1, p2) = (pre, post) := Option.some.inj h
        have h1 : c :: p1 = pre := congrArg Prod.fst hpair
        cases a with
        | nil =>
          exfalso
          apply hp
          simp only [List.nil_append, List.append_assoc] at heq
          exact List.isPrefixOf_iff_prefix.mpr ⟨b, heq.symm⟩
        | cons a0 atail =>
          simp only [List.cons_append] at heq
          injection heq with hceq hrest
          have := ih p1 p2 atail b hsf hrest
          rw [← h1]
          simp only [List.length_cons]
          omega

/-- When no query marker occurs, `beforeQuery` keeps the whole list. -/
theorem beforeQuery_eq_self : ∀ b : List Char, splitFirst ['?'] b = none →
    beforeQuery b = b := by
  intro b
  induction b with
  | nil => intro _; rfl
  | cons c rest ih =>
    intro h
    simp only [splitFirst] at h
    by_cases hc : c = '?'
    · subst hc
      have hp : List.isPrefixOf ['?'] ('?' :: rest) = true :=
        List.isPrefixOf_iff_prefix.mpr ⟨rest, rfl⟩
      rw [if_pos hp] at h
      exact absurd h (by simp)
    · have hp : List.isPrefixOf ['?'] (c :: rest) = false := by
        simp [List.isPrefixOf, Ne.symm hc]
      simp only [hp, Bool.false_eq_true, if_false] at h
      have hsf : splitFirst ['?'] rest = none := by
        cases hsf : splitFirst ['?'] rest with
        | none => rfl
        | some p => rw [hsf] at h; exact absurd h (by simp)
      simp only [beforeQuery, if_neg hc]
      rw [ih hsf]

/-- `beforeQuery` is the prefix a first-occurrence split at `?` returns. -/
theorem beforeQuery_eq_of_some : ∀ (b p q : List Char),
    splitFirst ['?'] b = some (p, q) → beforeQuery b = p := by
  intro b
  induction b with
  | nil =>
    intro p q h
    simp [splitFirst, List.isPrefixOf] at h
  | cons c rest ih =>
    intro p q h
    simp only [splitFirst] at h
    by_cases hc : c = '?'
    · subst hc
      have hp : List.isPrefixOf ['?'] ('?' :: rest) = true :=
        List.isPrefixOf_iff_prefix.mpr ⟨rest, rfl⟩
      rw [if_pos hp] at h
      have h1 : ([] : List Char) = p := congrArg Prod.fst (Option.some.inj h)
      simp [beforeQuery, ← h1]
    · have hp : List.isPrefixOf ['?'] (c :: rest) = false := by
        simp [List.isPrefixOf, Ne.symm hc]
      simp only [hp, Bool.false_eq_true, if_false] at h
      cases hsf : splitFirst ['?'] rest with
      | none => rw [hsf] at h; exact absurd h (by simp)
      | some pr =>
        obtain ⟨p1, q1⟩ := pr
        rw [hsf] at h
        simp only [Option.map_some'] at h
        have h1 : c :: p1 = p := congrArg Prod.fst (Option.some.inj h)
        have h2 := ih p1 q1 hsf
        simp [beforeQuery, hc, ← h1, h2]

/-- A successful response wait yields a non-empty text that is the trim of
some observed last assistant node. -/
theorem waitForResponse_ok (w : World) (prevId : Option String) (timeout : Nat)
    (tr : List Call) (txt : String)
    (h : waitForResponse w prevId timeout = (tr, .ok txt)) :
    txt ≠ "" ∧ ∃ n node, (w.nodes n).getLast? = some node ∧ txt = pyStrip node.text := by
  unfold waitForResponse at h
  split at h
  · simp at h
  · split at h
    · rename_i t0 hf x m t hs
      have htxt : t = txt := by
        have := congrArg Prod.snd h
        simpa using this
      subst htxt
      obtain ⟨hne, s, hread⟩ := stabilizeLoop_text_read _ _ _ _ _ _ _ hs
      refine ⟨hne, ?_⟩
      unfold lastAssistantText at hread
      cases hg : (w.nodes s).getLast? with
      | none => simp only [hg] at hread; exact absurd hread.symm hne
      | some node =>
        simp only [hg] at hread
        exact ⟨s, node, hg, hread.symm⟩
    · simp at h

/-- C1: after a new reply has been observed, the debounce loop returns a
text only at a tick where the generating indicator is absent and the
(non-empty) text has been unchanged since it was read a full stability
window (6 ticks = 1.5 s) earlier — any observed change restarts the
window — and the returned text is the last observed trimmed reply text.
In particular, on the simulated stream whose trimmed text last changes at
t = 1.0 s (tick 4, "pong") with the indicator clearing at tick 4,
completion fires exactly at tick 10 (10 × 250 ms = 2.5 s) and returns the
tick-4 text. -/
theorem C1_completion_debounce :
    (∀ (r : Nat → String) (g : Nat → Bool) (fuel t0 m : Nat) (txt : String),
        stabilizeLoop r g fuel t0 "" t0 = some (m, txt) →
        g m = false ∧ txt ≠ "" ∧
          ∃ s, s + stabilityTicks ≤ m ∧ r s = txt ∧
            ∀ j, s < j → j ≤ m → r j = "" ∨ r j = txt) ∧
    stabilizeLoop demoRead demoGen 120 0 "" 0 = some (10, "pong") ∧
    demoRead 4 = "pong" ∧ 10 * 250 = 2500 := by
  refine ⟨?_, by decide, by decide, rfl⟩
  intro r g fuel t0 m txt h
  exact stabilizeLoop_sound r g fuel t0 "" t0 m txt (Or.inl rfl) h

/-- Witness for C1 at the simulated stream: completion at tick 10 with
text "pong", unchanged since tick 4. -/
theorem C1_completion_debounce_witness :
    demoGen 10 = false ∧ "pong" ≠ "" ∧
      ∃ s, s + stabilityTicks ≤ 10 ∧ demoRead s = "pong" ∧
        ∀ j, s < j → j ≤ 10 → demoRead j = "" ∨ demoRead j = "pong" :=
  C1_completion_debounce.1 demoRead demoGen 120 0 10 "pong" (by decide)

/-- C2: when no new reply (identifier differing from `previousId`,
non-empty text) appears at any polled tick of the configured timeout
window, `_wait_for_response` fails with the no-reply timeout; the
not-finished timeout can only arise after some polled tick showed a new
reply. -/
theorem C2_timeout_ordering (w : World) (prevId : Option String) (timeout : Nat) :
    ((∀ k, k < 4 * max timeout 1 → newReplyReady prevId (w.nodes k) = false) →
      (waitForResponse w prevId timeout).2 = .error (.runtimeError timeoutNoReplyMsg)) ∧
    (∀ e, (waitForResponse w prevId timeout).2 = .error e →
      e = .runtimeError timeoutNotFinishedMsg →
      ∃ k, k < 4 * max timeout 1 ∧ newReplyReady prevId (w.nodes k) = true) := by
  constructor
  · intro hnone
    have hfn : findNewReply (fun t => newReplyReady prevId (w.nodes t))
        (4 * max timeout 1) 0 = none :=
      findNewReply_none _ _ _ fun k hk1 hk2 => hnone k (by omega)
    simp [waitForResponse, hfn]
  · intro e h he
    subst he
    cases hf : findNewReply (fun t => newReplyReady prevId (w.nodes t))
        (4 * max timeout 1) 0 with
    | none =>
      simp [waitForResponse, hf] at h
      exact absurd h (by decide)
    | some t0 =>
      obtain ⟨hp, h0, hlt⟩ := findNewReply_some _ _ _ _ hf
      exact ⟨t0, by omega, hp⟩

/-- Witness for C2: a page that never shows a reply makes a 1-second wait
fail with the no-reply timeout. -/
theorem C2_timeout_ordering_witness :
    (waitForResponse demoWorldNoReply none 1).2 =
      .error (.runtimeError timeoutNoReplyMsg) :=
  (C2_timeout_ordering demoWorldNoReply none 1).1 (by decide)

/-- C3 counterexample: when the page was closed out-of-band,
`send_message` lets `_ensure_page` recreate and re-navigate the page
before the conflicting-flags check, so the validation rejection is
preceded by automation calls — the claim's "zero automation calls" fails
at this input even though the validation error is still raised. -/
theorem C3_zero_automation_counterexample :
    (sendMessage demoWorldClosedPage false "https://chatgpt.com" "hi" 30 "INSTANT" 100
        (some "abc123") (some true)).2 = .error (.valueError conflictMsg) ∧
    (sendMessage demoWorldClosedPage false "https://chatgpt.com" "hi" 30 "INSTANT" 100
        (some "abc123") (some true)).1 =
      [Call.newPage, Call.setDefaultTimeout 10000, Call.goto "https://chatgpt.com"] :=
  ⟨rfl, rfl⟩

/-- C3 (amended): when the session's page is live, a request with both a
truthy conversation id and the temporary-chat flag set is rejected by
`send_message` with the conflicting-flags `ValueError` and an empty
automation trace (no page creation, navigation, typing, clicking or
evaluation), leaving the session untouched. -/
theorem C3_conflicting_flags_amended (w : World) (isDarwin : Bool)
    (base message : String) (timeout : Nat) (inputMode : String) (delayMs : Nat)
    (cid : Option String) (tmp : Option Bool)
    (halive : w.pageAlive = true) (hcid : optStrTruthy cid = true)
    (htmp : optBoolTruthy tmp = true) :
    sendMessage w isDarwin base message timeout inputMode delayMs cid tmp =
      ([], .error (.valueError conflictMsg)) := by
  simp [sendMessage, ensurePage, halive, hcid, htmp]

/-- Witness for the amended C3 on a live-page world. -/
theorem C3_conflicting_flags_amended_witness :
    sendMessage demoWorld false "https://chatgpt.com" "hi" 30 "INSTANT" 100
      (some "abc123") (some true) = ([], .error (.valueError conflictMsg)) :=
  C3_conflicting_flags_amended demoWorld false "https://chatgpt.com" "hi" 30 "INSTANT" 100
    (some "abc123") (some true) rfl (by decide) rfl

/-- C4: `_get_conversation_id` returns `none` exactly when the URL has no
`/c/` marker, and otherwise returns the segment following the first
`/c/`, trimmed at the first `?` (the spec-side `beforeQuery`). -/
theorem C4_conversation_id_from_url (url : String) :
    ((¬ ∃ a b, url.data = a ++ "/c/".data ++ b) → getConversationId url = none) ∧
    (∀ a b, url.data = a ++ "/c/".data ++ b →
      (∀ a' b', url.data = a' ++ "/c/".data ++ b' → a.length ≤ a'.length) →
      getConversationId url = some (String.mk (beforeQuery b))) := by
  constructor
  · intro hno
    unfold getConversationId
    cases hsf : splitFirst "/c/".data url.data with
    | none => rfl
    | some p =>
      obtain ⟨pre, post⟩ := p
      exact absurd ⟨pre, post, splitFirst_sound _ _ _ _ hsf⟩ hno
  · intro a b heq hmin
    unfold getConversationId
    cases hsf : splitFirst "/c/".data url.data with
    | none =>
      have := splitFirst_isSome "/c/".data (by decide) a b
      rw [← heq, hsf] at this
      simp at this
    | some p =>
      obtain ⟨pre, post⟩ := p
      have hdecomp := splitFirst_sound _ _ _ _ hsf
      have h1 : pre.length ≤ a.length := splitFirst_min _ _ _ _ a b hsf heq
      have h2 : a.length ≤ pre.length := hmin pre post hdecomp
      have happ : pre ++ ("/c/".data ++ post) = a ++ ("/c/".data ++ b) := by
        rw [← List.append_assoc, ← List.append_assoc, ← hdecomp, ← heq]
      obtain ⟨hpre, hrest⟩ := List.append_inj happ (Nat.le_antisymm h1 h2)
      have hpost : post = b := List.append_cancel_left hrest
      subst hpost
      cases hq : splitFirst ['?'] post with
      | none =>
        simp only [hq]
        rw [beforeQuery_eq_self post hq]
      | some pq =>
        obtain ⟨p1, q1⟩ := pq
        simp only [hq]
        rw [beforeQuery_eq_of_some post p1 q1 hq]

/-- Witness for C4 at a conversation URL with a query suffix. -/
theorem C4_conversation_id_from_url_witness :
    getConversationId "https://chatgpt.com/c/abc123?model=auto" =
      some (String.mk (beforeQuery "abc123?model=auto".data)) :=
  (C4_conversation_id_from_url "https://chatgpt.com/c/abc123?model=auto").2
    "https://chatgpt.com".data "abc123?model=auto".data (by decide)
    (fun a' b' h => splitFirst_min "/c/".data
      "https://chatgpt.com/c/abc123?model=auto".data
      "https://chatgpt.com".data "abc123?model=auto".data a' b' (by decide) h)

/-- C5: `_goto_conversation` rejects a blank (post-strip) id with a
`ValueError` before any navigation, is a navigation no-op when the
current URL already starts with the target conversation URL, and
otherwise navigates to it; the readiness wait then waits — each wait
bounded — for the URL, the composer and a message element in that order,
falling back to a short bounded network-idle wait when no message element
appears, and failing with a named error when the URL or composer wait
times out. -/
theorem C5_goto_conversation_contract (w : World) (base url cid : String) :
    (pyStrip cid = "" →
      gotoConversation base url cid = ([], .error (.valueError conversationIdEmptyMsg))) ∧
    (pyStrip cid ≠ "" → pyStartsWith url (base ++ "/c/" ++ pyStrip cid) = true →
      gotoConversation base url cid = ([], .ok url)) ∧
    (pyStrip cid ≠ "" → pyStartsWith url (base ++ "/c/" ++ pyStrip cid) = false →
      gotoConversation base url cid =
        ([Call.goto (base ++ "/c/" ++ pyStrip cid)], .ok (base ++ "/c/" ++ pyStrip cid))) ∧
    (w.convUrlReached = false →
      waitForConversationReady w base cid =
        ([Call.waitForUrl (base ++ "/c/" ++ cid ++ "*") 15000],
         .error (.runtimeError convLoadTimeoutMsg))) ∧
    (w.convUrlReached = true → w.composerFound = false →
      waitForConversationReady w base cid =
        ([Call.waitForUrl (base ++ "/c/" ++ cid ++ "*") 15000,
          Call.waitForSelector COMPOSER_SELECTOR 15000],
         .error (.runtimeError composerUnavailableMsg))) ∧
    (w.convUrlReached = true → w.composerFound = true → w.convMessageFound = true →
      waitForConversationReady w base cid =
        ([Call.waitForUrl (base ++ "/c/" ++ cid ++ "*") 15000,
          Call.waitForSelector COMPOSER_SELECTOR 15000,
          Call.waitForSelector (CONVERSATION_TURN_SELECTOR ++ ", " ++ MESSAGE_ROLE_SELECTOR) 10000],
         .ok ())) ∧
    (w.convUrlReached = true → w.composerFound = true → w.convMessageFound = false →
      waitForConversationReady w base cid =
        ([Call.waitForUrl (base ++ "/c/" ++ cid ++ "*") 15000,
          Call.waitForSelector COMPOSER_SELECTOR 15000,
          Call.waitForSelector (CONVERSATION_TURN_SELECTOR ++ ", " ++ MESSAGE_ROLE_SELECTOR) 10000,
          Call.waitForLoadState "networkidle" 5000],
         .ok ())) := by
  refine ⟨?_, ?_, ?_, ?_, ?_, ?_, ?_⟩
  · intro h; simp [gotoConversation, h]
  · intro h1 h2; simp [gotoConversation, h1, h2]
  · intro h1 h2; simp [gotoConversation, h1, h2]
  · intro h1; simp [waitForConversationReady, h1]
  · intro h1 h2; simp [waitForConversationReady, h1, h2]
  · intro h1 h2 h3; simp [waitForConversationReady, h1, h2, h3]
  · intro h1 h2 h3; simp [waitForConversationReady, h1, h2, h3]

/-- Witness for C5: a whitespace id is rejected with no call; an id whose
conversation URL is current is a no-op; a healthy page passes the three
readiness waits. -/
theorem C5_goto_conversation_contract_witness :
    gotoConversation "https://chatgpt.com" "https://chatgpt.com" "   " =
      ([], .error (.valueError conversationIdEmptyMsg)) ∧
    gotoConversation "https://chatgpt.com" "https://chatgpt.com/c/abc123" "abc123" =
      ([], .ok "https://chatgpt.com/c/abc123") ∧
    waitForConversationReady demoWorld "https://chatgpt.com" "abc123" =
      ([Call.waitForUrl "https://chatgpt.com/c/abc123*" 15000,
        Call.waitForSelector COMPOSER_SELECTOR 15000,
        Call.waitForSelector (CONVERSATION_TURN_SELECTOR ++ ", " ++ MESSAGE_ROLE_SELECTOR) 10000],
       .ok ()) :=
  ⟨(C5_goto_conversation_contract demoWorld "https://chatgpt.com" "https://chatgpt.com" "   ").1
     (by decide),
   (C5_goto_conversation_contract demoWorld "https://chatgpt.com"
     "https://chatgpt.com/c/abc123" "abc123").2.1 (by decide) (by decide),
   (C5_goto_conversation_contract demoWorld "https://chatgpt.com"
     "https://chatgpt.com" "abc123").2.2.2.2.2.1 rfl rfl rfl⟩

/-- C6: `_goto_home` issues no navigation when the URL is on the base
host with no conversation path, navigates to the base URL when on a
different host or inside a conversation path, and — provided the base URL
itself contains no `/c/` marker — a second consecutive call never
navigates, so two calls in a row issue at most one real navigation. -/
theorem C6_goto_home_idempotent (base url : String) :
    (pyStartsWith url base = true → occursIn "/c/" url = false →
      gotoHome base url = ([], url)) ∧
    (pyStartsWith url base = false → gotoHome base url = ([Call.goto base], base)) ∧
    (occursIn "/c/" url = true → (gotoHome base url).1 = [Call.goto base]) ∧
    (occursIn "/c/" base = false → (gotoHome base (gotoHome base url).2).1 = []) := by
  refine ⟨?_, ?_, ?_, ?_⟩
  · intro h1 h2; simp [gotoHome, h1, h2]
  · intro h1; simp [gotoHome, h1]
  · intro h1
    by_cases h2 : pyStartsWith url base = true
    · simp [gotoHome, h1, h2]
    · simp [gotoHome, h1, eq_false_of_ne_true h2]
  · intro hb
    by_cases h1 : pyStartsWith url base = true
    · by_cases h2 : occursIn "/c/" url = true
      · simp [gotoHome, h1, h2, pyStartsWith_self, hb]
      · simp [gotoHome, h1, eq_false_of_ne_true h2, hb]
    · simp [gotoHome, eq_false_of_ne_true h1, pyStartsWith_self, hb]

/-- Witness for C6: on the home URL the call is a no-op, and after leaving
a conversation the second call issues no navigation. -/
theorem C6_goto_home_idempotent_witness :
    gotoHome "https://chatgpt.com" "https://chatgpt.com" = ([], "https://chatgpt.com") ∧
    (gotoHome "https://chatgpt.com"
      ((gotoHome "https://chatgpt.com" "https://chatgpt.com/c/xyz").2)).1 = [] :=
  ⟨(C6_goto_home_idempotent "https://chatgpt.com" "https://chatgpt.com").1
     (by decide) (by decide),
   (C6_goto_home_idempotent "https://chatgpt.com" "https://chatgpt.com/c/xyz").2.2.2
     (by decide)⟩

/-- C7 counterexample: with every handle present and `page.close()`
failing, `close()` propagates the error (the claim says it is swallowed)
and the context step never runs (the claim says later steps still run). -/
theorem C7_close_swallow_counterexample :
    close demoCloseWorld = ([Call.closePage], some (Err.runtimeError "page close failed")) ∧
    (close demoCloseWorld).2 ≠ none ∧ Call.closeContext ∉ (close demoCloseWorld).1 :=
  ⟨rfl, by decide, by decide⟩

/-- C7 (amended): teardown proceeds page → context → browser → playwright
in that order, but `close()` contains no exception handling: the first
failing step's error propagates out of `close()` and the remaining steps
do not run (the serving layer's shutdown hook is what swallows the
error). -/
theorem C7_close_order_amended (w : CloseWorld) :
    (w.pageCloseFails = false → w.contextCloseFails = false →
     w.browserCloseFails = false → w.playwrightStopFails = false →
      close w = ((if w.hasPage then [Call.closePage] else []) ++
        (if w.hasContext then [Call.closeContext] else []) ++
        (if w.hasBrowser then [Call.closeBrowser] else []) ++
        (if w.hasPlaywright then [Call.stopPlaywright] else []), none)) ∧
    (w.hasPage = true → w.pageCloseFails = true →
      close w = ([Call.closePage], some (Err.runtimeError "page close failed"))) ∧
    (w.hasPage = true → w.hasContext = true → w.pageCloseFails = false →
     w.contextCloseFails = true →
      close w = ([Call.closePage, Call.closeContext],
        some (Err.runtimeError "context close failed"))) := by
  refine ⟨?_, ?_, ?_⟩
  · intro h1 h2 h3 h4; simp [close, h1, h2, h3, h4]
  · intro h1 h2; simp [close, h1, h2]
  · intro h1 h2 h3 h4; simp [close, h1, h2, h3, h4]

/-- Witness for the amended C7: with no failures the present handles are
torn down in order (here without a separate browser handle). -/
theorem C7_close_order_amended_witness :
    close ⟨true, true, false, true, false, false, false, false⟩ =
      ([Call.closePage, Call.closeContext, Call.stopPlaywright], none) := by
  have := (C7_close_order_amended ⟨true, true, false, true, false, false, false, false⟩).1
    rfl rfl rfl rfl
  simpa using this

/-- C8: the `/chat` handler decodes and validates every attachment before
anything reaches the client, so a failing payload yields a 400 with an
empty automation trace, and a non-empty automation trace implies the
whole payload list validated successfully. -/
theorem C8_attachment_validation_first (guessType : String → Option String)
    (w : World) (isDarwin : Bool) (base : String) (defaultTimeout : Nat)
    (req : ChatRequest) :
    (∀ e, buildImagePayloads guessType (req.images.getD []) 0 = .error e →
      chat guessType true w isDarwin base defaultTimeout req =
        ([], .error (.badRequest e))) ∧
    (∀ calls r, chat guessType true w isDarwin base defaultTimeout req = (calls, r) →
      calls ≠ [] →
      ∃ payloads, buildImagePayloads guessType (req.images.getD []) 0 = .ok payloads) := by
  constructor
  · intro e he; simp [chat, he]
  · intro calls r h hne
    unfold chat at h
    cases hb : buildImagePayloads guessType (req.images.getD []) 0 with
    | error e =>
      rw [hb] at h
      simp at h
      exact absurd h.1 hne
    | ok payloads => exact ⟨payloads, rfl⟩

/-- Witness for C8: a corrupted base64 payload is rejected with a 400 and
no automation call. -/
theorem C8_attachment_validation_first_witness :
    chat (fun _ => none) true demoWorld false "https://chatgpt.com" 240
      { message := "hi", timeout := none, input_mode := "INSTANT", input_delayMs := 100,
        conversation_id := none, temporary_chat := none,
        images := some [⟨"a.png", "!!!", none⟩] } =
      ([], .error (.badRequest "invalid base64 image payload")) :=
  (C8_attachment_validation_first (fun _ => none) demoWorld false "https://chatgpt.com" 240
    { message := "hi", timeout := none, input_mode := "INSTANT", input_delayMs := 100,
      conversation_id := none, temporary_chat := none,
      images := some [⟨"a.png", "!!!", none⟩] }).1 "invalid base64 image payload" rfl

/-- C9: when stealth is required but the capability is unavailable,
startup (`create` = construct + one `_start`) fails with the fatal
stealth error before the session is usable, and in particular before any
navigation is issued; the error is not retried. -/
theorem C9_stealth_startup_fatal (w : StartWorld) (base : String)
    (h1 : w.useStealth = true) (h2 : w.stealthAvailable = false) :
    (create w base).2 = .error (.runtimeError stealthMissingMsg) ∧
    ∀ u, Call.goto u ∉ (create w base).1 := by
  constructor
  · simp [create, start, h1, h2]
  · intro u
    by_cases hp : w.persistent = true
    · by_cases he : w.hasExistingPages = true
      · simp [create, start, h1, h2, hp, he]
      · simp [create, start, h1, h2, hp, eq_false_of_ne_true he]
    · simp [create, start, h1, h2, eq_false_of_ne_true hp]

/-- Witness for C9 at a non-persistent launch with stealth required but
missing. -/
theorem C9_stealth_startup_fatal_witness :
    (create ⟨true, false, false, false, true⟩ "https://chatgpt.com").2 =
      .error (.runtimeError stealthMissingMsg) ∧
    Call.goto "https://chatgpt.com" ∉
      (create ⟨true, false, false, false, true⟩ "https://chatgpt.com").1 :=
  ⟨(C9_stealth_startup_fatal ⟨true, false, false, false, true⟩ "https://chatgpt.com"
      rfl rfl).1,
   (C9_stealth_startup_fatal ⟨true, false, false, false, true⟩ "https://chatgpt.com"
      rfl rfl).2 "https://chatgpt.com"⟩

/-- C10: whenever `send_message` returns instead of raising, the returned
`ChatGPTResponse` has `failed = false` and a non-empty response text that
is the whitespace-trim of an observed last assistant node's raw text. -/
theorem C10_success_result_shape (w : World) (isDarwin : Bool)
    (base message : String) (timeout : Nat) (inputMode : String) (delayMs : Nat)
    (cid : Option String) (tmp : Option Bool) (calls : List Call) (resp : ChatGPTResponse)
    (h : sendMessage w isDarwin base message timeout inputMode delayMs cid tmp =
      (calls, .ok resp)) :
    resp.failed = false ∧ resp.response ≠ "" ∧
      ∃ n node, (w.nodes n).getLast? = some node ∧ resp.response = pyStrip node.text := by
  unfold sendMessage at h
  split at h
  · simp at h
  · split at h
    · simp at h
    · split at h
      · simp at h
      · split at h
        · simp at h
        · split at h
          · simp at h
          · split at h
            · simp at h
            · rename_i t5 txt hwait
              have hresp : ChatGPTResponse.mk txt (getConversationId w.finalUrl) false
                  = resp := by
                have := congrArg Prod.snd h
                simpa using this
              obtain ⟨hne, n, node, hg, ht⟩ := waitForResponse_ok w _ timeout t5 txt hwait
              rw [← hresp]
              exact ⟨rfl, hne, n, node, hg, ht⟩

/-- Witness for C10: the happy-path turn on `demoWorld` returns
`failed = false` and the trimmed non-empty text "pong". -/
theorem C10_success_result_shape_witness :
    (ChatGPTResponse.mk "pong" (some "abc123") false).failed = false ∧
    (ChatGPTResponse.mk "pong" (some "abc123") false).response ≠ "" ∧
      ∃ n node, (demoWorld.nodes n).getLast? = some node ∧
        (ChatGPTResponse.mk "pong" (some "abc123") false).response = pyStrip node.text :=
  C10_success_result_shape demoWorld false "https://chatgpt.com" "ping" 30 "INSTANT" 100
    none none _ (ChatGPTResponse.mk "pong" (some "abc123") false) rfl

end ChatGPT
